import Mathlib

/-!
Verification of the Agent Orchestration & Layered Memory Composition engine.

This file gives a shallow embedding, in Lean 4, of the core data model and
operations of the backend (`src/backend/src`): the event-sourced aggregates
(`Agent`, `AgentSession`), the DynamoDB event store's conditional append, the
tiered-memory context builders, the tenant namespace resolver, and the pattern
applicator's scoring and risk heuristics.  Python floats are modelled as
exact rationals, machine ints as `Nat`/`Int`, wall-clock timestamps and
randomly generated identifiers are either dropped (when no studied property
mentions them) or passed in explicitly as parameters.  Fallible operations
return `Except`.  Python's in-place mutation is modelled by returning the
updated value.
-/

set_option maxHeartbeats 1000000
set_option maxRecDepth 4000

namespace AgentCoreProof

/-! ## Domain events (domain/shared/domain_event.py, domain/agent/events/agent_events.py)

A `DomainEvent` in the source is a frozen pydantic record with common fields
(`event_id`, `event_type`, `timestamp`, `aggregate_id`, `aggregate_type`,
`version`, `metadata`) and four concrete subclasses.  `event_id` (a random
uuid), `timestamp` and the free-form `metadata` map play no role in any
studied property and are omitted; `event_type` is determined by the payload
constructor. -/

/-- The payload of one of the four concrete event classes of
`agent_events.py`, carrying exactly the subclass fields. -/
inductive EventPayload where
  | agentInvoked (agent_id session_id prompt_content prompt_role : String)
      (has_context : Bool)
  | responseGenerated (agent_id session_id response_content : String)
      (tokens_used : Nat) (model : String) (latency_ms : Nat) (source_count : Nat)
  | sessionStarted (session_id agent_id user_id tenant_id : String)
  | sessionEnded (session_id reason : String) (message_count total_tokens : Nat)
deriving DecidableEq, Repr

/-- A typed domain event: the common fields of `DomainEvent` that the
studied properties mention, plus the concrete payload. -/
structure DomainEvent where
  aggregate_id : String
  aggregate_type : String
  version : Nat
  payload : EventPayload
deriving DecidableEq, Repr

/-- `event_type` as set by `DomainEvent.model_post_init` (the subclass name). -/
def DomainEvent.event_type (e : DomainEvent) : String :=
  match e.payload with
  | .agentInvoked _ _ _ _ _ => "AgentInvoked"
  | .responseGenerated _ _ _ _ _ _ _ => "ResponseGenerated"
  | .sessionStarted _ _ _ _ => "SessionStarted"
  | .sessionEnded _ _ _ _ => "SessionEnded"

/-! ## Value objects (domain/agent/value_objects) -/

/-- `MessageRole` from prompt.py. -/
inductive MessageRole where
  | user
  | assistant
  | system
deriving DecidableEq, Repr

/-- The `.value` of the string enum. -/
def MessageRole.value : MessageRole → String
  | .user => "user"
  | .assistant => "assistant"
  | .system => "system"

/-- `Prompt` value object (content is validated non-empty in the source;
the validation is not needed by any studied property). -/
structure Prompt where
  content : String
  role : MessageRole := .user
deriving DecidableEq, Repr

/-- `Source` value object from response.py. -/
structure Source where
  chunk_id : String
  document_id : String
  content : String
  score : ℚ
deriving DecidableEq, Repr

/-- `Response` value object from response.py. -/
structure Response where
  content : String
  tokens_used : Nat
  model : String
  latency_ms : Nat
  sources : List Source := []
deriving DecidableEq, Repr

/-- `Response.source_count` property. -/
def Response.source_count (r : Response) : Nat := r.sources.length

/-- `ModelParameters` value object (defaults from model_parameters.py). -/
structure ModelParameters where
  model_id : String
  temperature : ℚ := 7/10
  max_tokens : Nat := 4096
  top_p : ℚ := 9/10
deriving DecidableEq, Repr

/-- `ModelParameters.default_claude`. -/
def ModelParameters.default_claude : ModelParameters :=
  { model_id := "anthropic.claude-3-sonnet-20240229-v1:0"
    temperature := 7/10
    max_tokens := 4096
    top_p := 9/10 }

/-! ## Agent aggregate (domain/agent/entities/agent.py)

`created_at`/`updated_at` timestamps are wall-clock values with no role in
any studied property and are omitted from the embedding; the pending event
buffer `_domain_events` and `version` come from the `Entity`/`AggregateRoot`
base classes (domain/shared/entity.py). -/

/-- `RagConfig` with its source defaults. -/
structure RagConfig where
  top_k : Nat := 5
  similarity_threshold : ℚ := 7/10
  rerank_enabled : Bool := true
  max_context_tokens : Nat := 4000
deriving DecidableEq, Repr

/-- `AgentConfig`. -/
structure AgentConfig where
  system_prompt : String
  model_params : ModelParameters
  rag_config : RagConfig
deriving DecidableEq, Repr

/-- The `Agent` aggregate root.  `id` stands for the `AgentId.value` string. -/
structure Agent where
  id : String
  name : String
  description : String := ""
  config : AgentConfig
  is_active : Bool := true
  tenant_id : String
  version : Nat := 0
  domain_events : List DomainEvent := []
deriving DecidableEq, Repr

/-- `Entity.add_domain_event` (appends to the pending buffer). -/
def Agent.add_domain_event (a : Agent) (e : DomainEvent) : Agent :=
  { a with domain_events := a.domain_events ++ [e] }

/-- `AggregateRoot.increment_version`. -/
def Agent.increment_version (a : Agent) : Agent :=
  { a with version := a.version + 1 }

/-- `Entity.clear_domain_events`: drains and returns the pending buffer. -/
def Agent.clear_domain_events (a : Agent) : List DomainEvent × Agent :=
  (a.domain_events, { a with domain_events := [] })

/-- `Agent.invoke`: records an `AgentInvoked` event and increments the
version; it performs no persistence. -/
def Agent.invoke (a : Agent) (prompt : Prompt) (session_id : String)
    (context : Option String) : Agent :=
  (a.add_domain_event
    { aggregate_id := a.id
      aggregate_type := "Agent"
      version := a.version + 1
      payload := .agentInvoked a.id session_id prompt.content
        prompt.role.value context.isSome }).increment_version

/-- `Agent.record_response`: records a `ResponseGenerated` event and
increments the version; it performs no persistence. -/
def Agent.record_response (a : Agent) (session_id : String) (response : Response) :
    Agent :=
  (a.add_domain_event
    { aggregate_id := a.id
      aggregate_type := "Agent"
      version := a.version + 1
      payload := .responseGenerated a.id session_id response.content
        response.tokens_used response.model response.latency_ms
        response.source_count }).increment_version

/-- `Agent.update_config`: replaces the config (and touches `updated_at`
in the source); it appends no event and does not change `version`. -/
def Agent.update_config (a : Agent) (new_config : AgentConfig) : Agent :=
  { a with config := new_config }

/-- `Agent.deactivate`: clears `is_active`; appends no event, version
unchanged. -/
def Agent.deactivate (a : Agent) : Agent :=
  { a with is_active := false }

/-- `Agent.activate`: sets `is_active`; appends no event, version
unchanged. -/
def Agent.activate (a : Agent) : Agent :=
  { a with is_active := true }

/-- `Agent.create` factory.  The randomly generated `AgentId` is passed in
as `generated_id`; `model_params` defaults to `default_claude` when absent,
exactly as in the source. -/
def Agent.create (generated_id name tenant_id system_prompt : String)
    (description : String := "") (model_params : Option ModelParameters := none) :
    Agent :=
  let mp := match model_params with
    | none => ModelParameters.default_claude
    | some p => p
  { id := generated_id
    name := name
    description := description
    config := { system_prompt := system_prompt, model_params := mp, rag_config := {} }
    tenant_id := tenant_id }

/-! ## AgentSession aggregate (domain/agent/entities/agent_session.py) -/

/-- `SessionStatus`. -/
inductive SessionStatus where
  | active
  | ended
  | expired
deriving DecidableEq, Repr

/-- The `AgentSession` aggregate root.  Timestamps (`created_at`,
`updated_at`, `ended_at`) are omitted as in `Agent`. -/
structure AgentSession where
  id : String
  agent_id : String
  user_id : String
  tenant_id : String
  status : SessionStatus := .active
  message_count : Nat := 0
  total_tokens : Nat := 0
  version : Nat := 0
  domain_events : List DomainEvent := []
deriving DecidableEq, Repr

/-- `Entity.add_domain_event` for sessions. -/
def AgentSession.add_domain_event (s : AgentSession) (e : DomainEvent) : AgentSession :=
  { s with domain_events := s.domain_events ++ [e] }

/-- `AggregateRoot.increment_version` for sessions. -/
def AgentSession.increment_version (s : AgentSession) : AgentSession :=
  { s with version := s.version + 1 }

/-- `Entity.clear_domain_events` for sessions. -/
def AgentSession.clear_domain_events (s : AgentSession) :
    List DomainEvent × AgentSession :=
  (s.domain_events, { s with domain_events := [] })

/-- `AgentSession.start`: emits `SessionStarted` and increments the version. -/
def AgentSession.start (s : AgentSession) : AgentSession :=
  (s.add_domain_event
    { aggregate_id := s.id
      aggregate_type := "AgentSession"
      version := s.version + 1
      payload := .sessionStarted s.id s.agent_id s.user_id s.tenant_id
    }).increment_version

/-- `AgentSession.end`: raises `ValueError("Session is not active")` unless
the status is ACTIVE; otherwise sets status ENDED, emits `SessionEnded`, and
increments the version.  (Named `end_session` here because `end` is a Lean
keyword; the raise happens before any mutation, so on error the session is
unchanged.) -/
def AgentSession.end_session (s : AgentSession) (reason : String := "user_ended") :
    Except String AgentSession :=
  if s.status ≠ SessionStatus.active then
    .error "Session is not active"
  else
    let s1 := { s with status := SessionStatus.ended }
    .ok ((s1.add_domain_event
      { aggregate_id := s.id
        aggregate_type := "AgentSession"
        version := s.version + 1
        payload := .sessionEnded s.id reason s.message_count s.total_tokens
      }).increment_version)

/-- `AgentSession.expire`: a no-op unless the status is ACTIVE; otherwise
sets status EXPIRED, emits `SessionEnded` with reason "expired", and
increments the version. -/
def AgentSession.expire (s : AgentSession) : AgentSession :=
  if s.status ≠ SessionStatus.active then
    s
  else
    let s1 := { s with status := SessionStatus.expired }
    (s1.add_domain_event
      { aggregate_id := s.id
        aggregate_type := "AgentSession"
        version := s.version + 1
        payload := .sessionEnded s.id "expired" s.message_count s.total_tokens
      }).increment_version

/-- `AgentSession.record_interaction`: bumps `message_count` and
`total_tokens`; it appends no event and does not change `version`. -/
def AgentSession.record_interaction (s : AgentSession) (tokens_used : Nat) :
    AgentSession :=
  { s with message_count := s.message_count + 1
           total_tokens := s.total_tokens + tokens_used }

/-- `AgentSession.is_active` property. -/
def AgentSession.is_active (s : AgentSession) : Bool :=
  s.status = SessionStatus.active

/-- `AgentSession.create` factory: builds the session (version 0, no
events) and then calls `start()`.  The randomly generated session id is
passed in as `generated_id`. -/
def AgentSession.create (generated_id agent_id user_id tenant_id : String) :
    AgentSession :=
  let session : AgentSession :=
    { id := generated_id
      agent_id := agent_id
      user_id := user_id
      tenant_id := tenant_id }
  session.start

/-! ## Event store (infrastructure/persistence/event_store/dynamodb_event_store.py)

`DynamoDBEventStore.append` performs a DynamoDB `put_item` with condition
`attribute_not_exists(pk) AND attribute_not_exists(sk)`; per DynamoDB
semantics that is an insert that fails (raising
`ConditionalCheckFailedException`, re-raised as `ConcurrencyError`) exactly
when an item with the same `(pk, sk)` primary key already exists, and
otherwise stores the item.  The table is modelled as the list of stored
items; `append` returns the outcome together with the (possibly unchanged)
table. -/

/-- `ConcurrencyError` with the message built in the source. -/
structure ConcurrencyError where
  message : String
deriving DecidableEq, Repr

/-- The sort key `f"v{event.version:010d}"`: "v" followed by the decimal
version zero-padded to (at least) 10 digits. -/
def version_sort_key (version : Nat) : String :=
  let s := toString version
  "v" ++ String.mk (List.replicate (10 - s.length) '0') ++ s

/-- The partition key `f"{event.aggregate_type}#{event.aggregate_id}"`. -/
def event_pk (e : DomainEvent) : String :=
  e.aggregate_type ++ "#" ++ e.aggregate_id

/-- The sort key of an event's item. -/
def event_sk (e : DomainEvent) : String :=
  version_sort_key e.version

/-- One stored DynamoDB item (the attributes beyond the key carry the
event itself). -/
structure StoredEventItem where
  pk : String
  sk : String
  event : DomainEvent
deriving DecidableEq, Repr

/-- Whether the table already holds an item with the given primary key
(this is what the conditional expression checks). -/
def key_exists (table : List StoredEventItem) (pk sk : String) : Bool :=
  table.any (fun it => it.pk = pk && it.sk = sk)

/-- `DynamoDBEventStore.append`: conditional insert keyed by
`(aggregate_type#aggregate_id, v<zero-padded version>)`.  On a key conflict
it raises `ConcurrencyError` and leaves the table unchanged; otherwise it
stores the item. -/
def event_store_append (table : List StoredEventItem) (e : DomainEvent) :
    Except ConcurrencyError Unit × List StoredEventItem :=
  let pk := event_pk e
  let sk := event_sk e
  if key_exists table pk sk then
    (.error { message := "Event version " ++ toString e.version ++
        " already exists for " ++ e.aggregate_id }, table)
  else
    (.ok (), table ++ [{ pk := pk, sk := sk, event := e }])

/-! ## Command machinery for the aggregate claims -/

/-- The event-emitting mutators of the `Agent` aggregate (the only methods
of `Agent` that append a domain event). -/
inductive AgentCmd where
  | invokeCmd (prompt : Prompt) (session_id : String) (context : Option String)
  | recordResponseCmd (session_id : String) (response : Response)
deriving Repr

/-- Apply one event-emitting command to an agent. -/
def Agent.applyCmd (a : Agent) : AgentCmd → Agent
  | .invokeCmd p sid ctx => a.invoke p sid ctx
  | .recordResponseCmd sid r => a.record_response sid r

/-- Apply a sequence of event-emitting commands in order. -/
def Agent.applyCmds (a : Agent) (cmds : List AgentCmd) : Agent :=
  cmds.foldl Agent.applyCmd a

/-- All state-changing operations on an `AgentSession`.  A raising `end()`
leaves the session unchanged (the exception is thrown before any mutation). -/
inductive SessionCmd where
  | startCmd
  | endCmd (reason : String)
  | expireCmd
  | recordInteractionCmd (tokens_used : Nat)
deriving Repr

/-- Apply one session operation; a raising `end()` leaves the state as is. -/
def AgentSession.applyCmd (s : AgentSession) : SessionCmd → AgentSession
  | .startCmd => s.start
  | .endCmd reason =>
    match s.end_session reason with
    | .ok s' => s'
    | .error _ => s
  | .expireCmd => s.expire
  | .recordInteractionCmd t => s.record_interaction t

/-- Apply a sequence of session operations in order. -/
def AgentSession.applyCmds (s : AgentSession) (cmds : List SessionCmd) : AgentSession :=
  cmds.foldl AgentSession.applyCmd s

/-! ## Python string slicing helpers

Python `s[:k]` keeps the first `k` characters when `k ≥ 0`, and all but the
last `-k` characters when `k < 0` (clamped at the empty string). -/

/-- Python `s[:k]` for an arbitrary integer bound `k`. -/
def pyslice_to (s : String) (k : Int) : String :=
  if 0 ≤ k then String.mk (s.data.take k.toNat)
  else String.mk (s.data.take (s.data.length - (-k).toNat))

/-- Drop the last `n` characters (used to peel an ellipsis marker off). -/
def str_drop_right (s : String) (n : Nat) : String :=
  String.mk (s.data.take (s.data.length - n))

/-! ## Memory configuration (infrastructure/agentcore/memory_config.py)

Only the settings the studied code paths read are embedded; the defaults
are the source defaults.  Fields whose Python name ends in a word the
verification toolchain reserves are accessed through their full names. -/

/-- `MemoryConfig` with its source defaults. -/
structure MemoryConfig where
  memory_store_id : String := ""
  max_episodes_per_query : Nat := 3
  episode_context_max_chars : Int := 2000
  episode_namespace_prefix : String := "/episodes"
  max_reflections_per_query : Nat := 2
  reflection_context_max_chars : Int := 1000
  reflection_namespace_prefix : String := "/reflections"
  enable_tenant_isolation : Bool := true
  tenant_namespace_prefix : String := "/tenant"
  enable_memory_cache : Bool := true
  max_session_messages : Nat := 100
deriving DecidableEq, Repr

/-! ## Tenant namespace resolver (episodic_memory.py `_build_namespace`)

`tenant_id` is an optional Python string; the guard is
`if tenant_id and self._config.enable_tenant_isolation:`, where a `None` or
empty tenant id is falsy. -/

/-- `EpisodicMemoryService._build_namespace`. -/
def build_namespace (cfg : MemoryConfig) (user_id : String)
    (tenant_id : Option String) : String :=
  let pre := MemoryConfig.episode_namespace_prefix cfg
  let tenantPre := MemoryConfig.tenant_namespace_prefix cfg
  match tenant_id with
  | some t =>
    if t ≠ "" ∧ cfg.enable_tenant_isolation then
      tenantPre ++ "/" ++ t ++ pre ++ "/" ++ user_id
    else
      pre ++ "/" ++ user_id
  | none => pre ++ "/" ++ user_id

/-! ## Episodic memory rendering (episodic_memory.py) -/

/-- `Episode` dataclass (the `raw_data` dict is dropped). -/
structure Episode where
  id : String
  situation : String
  intent : String
  assessment : String
  justification : String
  reflection : String
  tools_used : List String := []
  timestamp : String := ""
deriving DecidableEq, Repr

/-- The per-episode lines of `build_episode_context`, with 1-based
enumeration as in `enumerate(episodes, 1)`.  The `if ep.reflection:` and
`if ep.tools_used:` guards are Python truthiness (non-empty). -/
def episode_lines : Nat → List Episode → List String
  | _, [] => []
  | i, ep :: rest =>
    (["\n### Experience " ++ toString i ++ ":",
      "- Situation: " ++ ep.situation,
      "- Intent: " ++ ep.intent,
      "- Outcome: " ++ ep.assessment] ++
     (if ep.reflection ≠ "" then ["- Learning: " ++ ep.reflection] else []) ++
     (if ep.tools_used ≠ [] then
        ["- Tools used: " ++ String.intercalate ", " ep.tools_used] else []))
    ++ episode_lines (i + 1) rest

/-- The full (pre-truncation) text `"\n".join(lines)` that
`build_episode_context` assembles before applying the character budget. -/
def episode_context_text (episodes : List Episode) : String :=
  String.intercalate "\n" ("## Past Similar Experiences:" :: episode_lines 1 episodes)

/-- Resolve a Python `max_chars or default` optional/falsy argument. -/
def resolve_max_chars (max_chars : Option Int) (default : Int) : Int :=
  match max_chars with
  | none => default
  | some m => if m = 0 then default else m

/-- `EpisodicMemoryService.build_episode_context`: renders the episodes and
truncates to `max_chars` characters, replacing the tail with `"..."` via
`context[:max_chars - 3] + "..."`. -/
def build_episode_context (cfg : MemoryConfig) (episodes : List Episode)
    (max_chars : Option Int := none) : String :=
  if episodes = [] then ""
  else
    let mc := resolve_max_chars max_chars cfg.episode_context_max_chars
    let context := episode_context_text episodes
    if (context.length : Int) > mc then pyslice_to context (mc - 3) ++ "..."
    else context

/-! ## Session memory rendering (session_memory.py) -/

/-- `Message` dataclass (timestamp and metadata dropped). -/
structure Message where
  role : String
  content : String
deriving DecidableEq, Repr

/-- `SessionContext` dataclass (timestamps and metadata dropped). -/
structure SessionContext where
  session_id : String
  user_id : String
  messages : List Message := []
deriving DecidableEq, Repr

/-- The role-label lookup of `to_prompt_context`. -/
def role_label (role : String) : String :=
  if role = "user" then "ユーザー"
  else if role = "assistant" then "アシスタント"
  else if role = "system" then "システム"
  else if role = "tool" then "ツール"
  else role

/-- `SessionContext.get_recent_messages`: Python `messages[-count:]` (for
`count = 0` the slice `[-0:]` is the whole list). -/
def SessionContext.get_recent_messages (ctx : SessionContext) (count : Nat) :
    List Message :=
  if ctx.messages = [] then []
  else if count = 0 then ctx.messages
  else ctx.messages.drop (ctx.messages.length - count)

/-- `SessionContext.to_prompt_context`: the session-history section
(header `## 会話履歴:` plus one line per recent message, content capped at
500 characters). -/
def SessionContext.to_prompt_context (ctx : SessionContext)
    (max_messages : Nat := 10) : String :=
  let recent := ctx.get_recent_messages max_messages
  if recent = [] then ""
  else
    String.intercalate "\n"
      ("## 会話履歴:" ::
        recent.map (fun m => "[" ++ role_label m.role ++ "]: " ++
          pyslice_to m.content 500))

/-- `SessionMemoryService.build_context_prompt` (the `max_messages or
config.max_session_messages` default applies Python falsiness). -/
def build_context_prompt (cfg : MemoryConfig) (ctx : SessionContext)
    (max_messages : Option Nat := none) : String :=
  let mm := match max_messages with
    | none => cfg.max_session_messages
    | some m => if m = 0 then cfg.max_session_messages else m
  ctx.to_prompt_context mm

/-! ## Reflection rendering

`reflection_service.py` is imported throughout the backend but is not part
of the source tree; only its tests and callers are.  The `Reflection`
dataclass fields below are those exercised by the tests and the spec's data
model. -/

/-- `Reflection` dataclass (from the spec's data model and the service's
tests; `raw_data` dropped). -/
structure Reflection where
  id : String
  use_case : String
  insight : String
  success_patterns : List String := []
  failure_patterns : List String := []
  best_practices : List String := []
  episode_count : Nat := 0
  timestamp : String := ""
deriving DecidableEq, Repr

/-- Per-reflection lines of the reflection prompt (headers from the
service's tests). -/
def reflection_lines : List Reflection → List String
  | [] => []
  | r :: rest =>
    (["\n### Use case: " ++ r.use_case,
      "- Insight: " ++ r.insight] ++
     (if r.success_patterns ≠ [] then
        "- What works well:" :: r.success_patterns.map (fun p => "  - " ++ p)
      else []) ++
     (if r.failure_patterns ≠ [] then
        "- What to avoid:" :: r.failure_patterns.map (fun p => "  - " ++ p)
      else []) ++
     (if r.best_practices ≠ [] then
        "- Best practices:" :: r.best_practices.map (fun p => "  - " ++ p)
      else []))
    ++ reflection_lines rest

/-- Modelled from the spec: `ReflectionService.build_reflection_prompt` is
in the missing `reflection_service.py`.  Per the spec's context-builder
contract and the service's tests it renders a `## Insights from Past
Experience:` block (empty string for no reflections) bounded by `max_chars`
(default `reflection_context_max_chars`), truncating at the end of the
concatenated text with an `"..."` marker, like the other builders. -/
def build_reflection_prompt (cfg : MemoryConfig) (reflections : List Reflection)
    (max_chars : Option Int := none) : String :=
  if reflections = [] then ""
  else
    let mc := resolve_max_chars max_chars cfg.reflection_context_max_chars
    let text := String.intercalate "\n"
      ("## Insights from Past Experience:" :: reflection_lines reflections)
    if (text.length : Int) > mc then pyslice_to text (mc - 3) ++ "..."
    else text

/-! ## Context composers
(application/commands/submit_question_with_memory.py and
infrastructure/agentcore/tenant_memory.py) -/

/-- One vector-search hit (the `dict` entries the composer reads). -/
structure SearchResult where
  content : String
  score : ℚ := 0
  source : String := "Unknown"
deriving DecidableEq, Repr

/-- Per-result lines of `_build_rag_context`, with 1-based enumeration. -/
def rag_lines : Nat → List SearchResult → List String
  | _, [] => []
  | i, r :: rest =>
    ("\n### Source " ++ toString i ++ ": " ++ r.source ++ "\n" ++ r.content)
    :: rag_lines (i + 1) rest

/-- `SubmitQuestionWithMemoryHandler._build_rag_context`: `None` for no
results, otherwise the knowledge-base section. -/
def build_rag_context (search_results : List SearchResult) : Option String :=
  if search_results = [] then none
  else some (String.intercalate "\n"
    ("## Relevant Knowledge Base Information:" :: rag_lines 1 search_results))

/-- `SubmitQuestionWithMemoryHandler._build_enriched_context`: collects the
reflection, episode and knowledge-base sections (each guarded first by the
input list being non-empty and then by the rendered text being truthy),
joins them with `"\n\n---\n\n"`, and returns `None` when no section
survives. -/
def build_enriched_context (cfg : MemoryConfig) (search_results : List SearchResult)
    (episodes : List Episode) (reflections : List Reflection) : Option String :=
  let part1 : List String :=
    if reflections ≠ [] then
      let rc := build_reflection_prompt cfg reflections
      if rc ≠ "" then [rc] else []
    else []
  let part2 : List String :=
    if episodes ≠ [] then
      let ec := build_episode_context cfg episodes
      if ec ≠ "" then [ec] else []
    else []
  let part3 : List String :=
    if search_results ≠ [] then
      match build_rag_context search_results with
      | some t => if t ≠ "" then [t] else []
      | none => []
    else []
  let context_parts := part1 ++ part2 ++ part3
  if context_parts = [] then none
  else some (String.intercalate "\n\n---\n\n" context_parts)

/-- `TenantConfig` (tenant_memory.py); the per-tenant overrides not read by
any studied property are dropped. -/
structure TenantConfig where
  tenant_id : String
  name : String
  enable_episodic_memory : Bool := true
  enable_reflections : Bool := true
deriving DecidableEq, Repr

/-- `TenantMemoryService._build_full_context_prompt`: collects the
session-history, episode and reflection sections in that order (each
guarded by input non-emptiness — plus the tenant feature flag for episodes
and reflections — and then by the rendered text being truthy) and joins
them with `"\n\n"`; with no surviving section the result is the empty
string.  The per-tenant service configs preserve the base config's
`*_context_max_chars`, so the base `cfg` is threaded to the builders. -/
def build_full_context_prompt (cfg : MemoryConfig) (session : Option SessionContext)
    (episodes : List Episode) (reflections : List Reflection)
    (tenant_config : TenantConfig) : String :=
  let sections1 : List String :=
    match session with
    | some s =>
      if s.messages ≠ [] then
        let sp := build_context_prompt cfg s
        if sp ≠ "" then [sp] else []
      else []
    | none => []
  let sections2 : List String :=
    if episodes ≠ [] ∧ tenant_config.enable_episodic_memory then
      let ec := build_episode_context cfg episodes
      if ec ≠ "" then [ec] else []
    else []
  let sections3 : List String :=
    if reflections ≠ [] ∧ tenant_config.enable_reflections then
      let rc := build_reflection_prompt cfg reflections
      if rc ≠ "" then [rc] else []
    else []
  String.intercalate "\n\n" (sections1 ++ sections2 ++ sections3)

/-! ## Pattern applicator (application/services/pattern_applicator.py) -/

/-- `PatternMatchResult`. -/
inductive PatternMatchResult where
  | success_pattern
  | failure_pattern
  | best_practice
  | no_match
deriving DecidableEq, Repr

/-- `AppliedPattern`. -/
structure AppliedPattern where
  pattern_type : PatternMatchResult
  pattern : String
  confidence : ℚ
  source_reflection_id : String
  recommendation : String
deriving DecidableEq, Repr

/-- `PatternAnalysis` (the derived text fields `overall_recommendation`,
`risk_level`, `suggested_approach` are outputs of the applicator, not
state read by `_assess_risk_level`, and are left out of the record). -/
structure PatternAnalysis where
  query : String
  applied_patterns : List AppliedPattern := []
deriving DecidableEq, Repr

/-- `PatternAnalysis.success_patterns` property. -/
def PatternAnalysis.success_patterns (a : PatternAnalysis) : List AppliedPattern :=
  a.applied_patterns.filter
    (fun p => p.pattern_type = PatternMatchResult.success_pattern)

/-- `PatternAnalysis.failure_patterns` property. -/
def PatternAnalysis.failure_patterns (a : PatternAnalysis) : List AppliedPattern :=
  a.applied_patterns.filter
    (fun p => p.pattern_type = PatternMatchResult.failure_pattern)

/-- The stop-word set of `_calculate_pattern_confidence`. -/
def stop_words : Finset String :=
  {"の", "は", "が", "を", "に", "と", "で", "a", "the", "is", "are", "to", "for"}

/-- `PatternApplicator._calculate_pattern_confidence`, over the word sets
produced by Python's `set(….split())` on the (lowercased) query and
pattern.  The inputs are the whitespace-token lists; identical texts give
identical token lists.  Note the Python operator precedence in
`query_words | pattern_words - stop_words`: the difference binds tighter. -/
def calculate_pattern_confidence (query_tokens pattern_tokens : List String) : ℚ :=
  let query_words := query_tokens.toFinset
  let pattern_words := pattern_tokens.toFinset
  if pattern_words = ∅ then 0
  else
    let common_words := (query_words ∩ pattern_words) \ stop_words
    if common_words = ∅ then 3/10
    else
      let union_words := query_words ∪ (pattern_words \ stop_words)
      if union_words = ∅ then 3/10
      else
        let jaccard : ℚ := (common_words.card : ℚ) / (union_words.card : ℚ)
        min (3/10 + jaccard * (7/10)) 1

/-- Jaccard coefficient of two finite word sets (0 when both are empty,
matching rational division by zero). -/
def jaccard_coeff (A B : Finset String) : ℚ :=
  ((A ∩ B).card : ℚ) / ((A ∪ B).card : ℚ)

/-- `PatternApplicator._assess_risk_level`.  The early returns of the
Python are modelled with an intermediate option. -/
def assess_risk_level (analysis : PatternAnalysis) : String :=
  let failure_count := analysis.failure_patterns.length
  let success_count := analysis.success_patterns.length
  let from_failures : Option String :=
    if failure_count > 0 then
      let avg_failure_confidence : ℚ :=
        ((analysis.failure_patterns.map (fun p => p.confidence)).sum) / failure_count
      if avg_failure_confidence > 7/10 ∨ failure_count ≥ 2 then some "high"
      else if avg_failure_confidence > 1/2 then some "medium"
      else none
    else none
  match from_failures with
  | some r => r
  | none =>
    if success_count > failure_count then "low"
    else if failure_count > 0 then "medium"
    else "low"

/-! ## Orchestration handler
(application/commands/submit_question_with_memory.py `handle`)

The collaborators (repositories, memory services, vector search, LLM,
event store) are oracles supplied through `HandlerEnv`; each fallible call
either yields its value or raises, and an uncaught exception propagates out
of `handle` — the Python has no `try` on this path.  The handler is
embedded as a function returning the outcome together with the ordered
trace of collaborator calls it issued (a call that raises is still in the
trace).  Wall-clock latency is dropped. -/

/-- The collaborator calls `handle` can issue, in source order. -/
inductive HandlerStep where
  | loadAgent
  | loadSession
  | retrieveEpisodes
  | retrieveReflections
  | searchKnowledge
  | llmGenerate
  | saveInteraction
  | appendEvents
  | saveAggregates
deriving DecidableEq, Repr

/-- An exception raised by a collaborator (memory platform, search, LLM,
event store…). -/
structure CollaboratorError where
  message : String
deriving DecidableEq, Repr

/-- What `handle` can raise: its own `ValueError`s, or a propagated
collaborator exception. -/
inductive HandlerError where
  | valueError (message : String)
  | collaborator (e : CollaboratorError)
deriving DecidableEq, Repr

/-- `SubmitQuestionCommand`. -/
structure SubmitQuestionCommand where
  session_id : String
  agent_id : String
  user_id : String
  tenant_id : String
  question : String
  enable_episodic_memory : Bool := true
  enable_reflections : Bool := true
deriving DecidableEq, Repr

/-- `SubmitQuestionResult` (latency dropped). -/
structure SubmitQuestionResult where
  response_content : String
  tokens_used : Nat
  sources : List SearchResult
  episodes_used : Nat := 0
  reflections_used : Nat := 0
deriving DecidableEq, Repr

/-- The oracle behaviors of every collaborator call the handler makes. -/
structure HandlerEnv where
  agent : Option Agent
  session : Option AgentSession
  episodes : Except CollaboratorError (List Episode)
  reflections : Except CollaboratorError (List Reflection)
  search_results : Except CollaboratorError (List SearchResult)
  llm_response : Except CollaboratorError (String × Nat)
  save_interaction_outcome : Except CollaboratorError Unit
  append_outcome : Except CollaboratorError Unit
  repo_save_outcome : Except CollaboratorError Unit
deriving Repr

/-- `SubmitQuestionWithMemoryHandler.handle`: load agent (ValueError when
absent or inactive), load-or-create session, retrieve episodes and
reflections when enabled, search the knowledge base, build the enriched
context, record the invocation, call the LLM, save the interaction, record
the response/interaction, persist events and aggregates.  Returns the
outcome and the ordered trace of collaborator calls. -/
def handle (cfg : MemoryConfig) (env : HandlerEnv) (cmd : SubmitQuestionCommand)
    (generated_session_id : String) :
    Except HandlerError SubmitQuestionResult × List HandlerStep :=
  match env.agent with
  | none => (.error (.valueError ("Agent not found: " ++ cmd.agent_id)), [.loadAgent])
  | some agent =>
    if agent.is_active = false then
      (.error (.valueError ("Agent is not active: " ++ cmd.agent_id)), [.loadAgent])
    else
      let session := match env.session with
        | some s => s
        | none => AgentSession.create generated_session_id agent.id
            cmd.user_id cmd.tenant_id
      let tr2 := [HandlerStep.loadAgent, HandlerStep.loadSession] ++
        (if cmd.enable_episodic_memory then [HandlerStep.retrieveEpisodes] else [])
      match (if cmd.enable_episodic_memory then env.episodes else .ok []) with
      | .error e => (.error (.collaborator e), tr2)
      | .ok episodes =>
        let tr3 := tr2 ++
          (if cmd.enable_reflections then [HandlerStep.retrieveReflections] else [])
        match (if cmd.enable_reflections then env.reflections else .ok []) with
        | .error e => (.error (.collaborator e), tr3)
        | .ok reflections =>
          let tr4 := tr3 ++ [HandlerStep.searchKnowledge]
          match env.search_results with
          | .error e => (.error (.collaborator e), tr4)
          | .ok search_results =>
            let context := build_enriched_context cfg search_results episodes
              reflections
            let agent1 := agent.invoke { content := cmd.question } session.id context
            let tr5 := tr4 ++ [HandlerStep.llmGenerate]
            match env.llm_response with
            | .error e => (.error (.collaborator e), tr5)
            | .ok (response_content, tokens_used) =>
              let tr6 := tr5 ++ [HandlerStep.saveInteraction]
              match env.save_interaction_outcome with
              | .error e => (.error (.collaborator e), tr6)
              | .ok _ =>
                let response : Response :=
                  { content := response_content
                    tokens_used := tokens_used
                    model := agent.config.model_params.model_id
                    latency_ms := 0
                    sources := [] }
                let agent2 := agent1.record_response session.id response
                let session2 := session.record_interaction tokens_used
                let tr7 := tr6 ++ [HandlerStep.appendEvents]
                match env.append_outcome with
                | .error e => (.error (.collaborator e), tr7)
                | .ok _ =>
                  let tr8 := tr7 ++ [HandlerStep.saveAggregates]
                  match env.repo_save_outcome with
                  | .error e => (.error (.collaborator e), tr8)
                  | .ok _ =>
                    let _ := (agent2.clear_domain_events, session2.clear_domain_events)
                    (.ok { response_content := response_content
                           tokens_used := tokens_used
                           sources := search_results
                           episodes_used := episodes.length
                           reflections_used := reflections.length }, tr8)

/-! ## Shared lemmas about the aggregate commands -/

/-- Each event-emitting `Agent` command bumps the version by exactly one. -/
theorem Agent.applyCmd_version (a : Agent) (c : AgentCmd) :
    (a.applyCmd c).version = a.version + 1 := by
  cases c <;> rfl

/-- Each event-emitting `Agent` command appends exactly one event, carrying
version `a.version + 1`. -/
theorem Agent.applyCmd_events (a : Agent) (c : AgentCmd) :
    (a.applyCmd c).domain_events.map DomainEvent.version =
      a.domain_events.map DomainEvent.version ++ [a.version + 1] := by
  cases c <;>
    simp [Agent.applyCmd, Agent.invoke, Agent.record_response,
      Agent.add_domain_event, Agent.increment_version]

/-- Folding event-emitting commands adds one version per command. -/
theorem Agent.applyCmds_version (a : Agent) (cmds : List AgentCmd) :
    (a.applyCmds cmds).version = a.version + cmds.length := by
  induction cmds generalizing a with
  | nil => simp [Agent.applyCmds]
  | cons c cs ih =>
    have h1 := Agent.applyCmd_version a c
    simp only [Agent.applyCmds, List.foldl_cons] at *
    rw [ih, h1, List.length_cons]
    omega

/-- If the pending buffer already carries versions `1..a.version`, then
after `cmds` it carries `1..(a.version + cmds.length)`. -/
theorem Agent.applyCmds_events (a : Agent) (cmds : List AgentCmd)
    (h : a.domain_events.map DomainEvent.version = List.range' 1 a.version) :
    (a.applyCmds cmds).domain_events.map DomainEvent.version =
      List.range' 1 (a.version + cmds.length) := by
  induction cmds generalizing a with
  | nil => simpa [Agent.applyCmds] using h
  | cons c cs ih =>
    simp only [Agent.applyCmds, List.foldl_cons] at *
    have h2 : (a.applyCmd c).domain_events.map DomainEvent.version =
        List.range' 1 (a.applyCmd c).version := by
      rw [Agent.applyCmd_events, h, Agent.applyCmd_version, List.range'_concat]
      simp [Nat.add_comm]
    have := ih (a.applyCmd c) h2
    rw [Agent.applyCmd_version] at this
    simpa [Nat.add_assoc, Nat.add_comm, Nat.add_left_comm] using this

/-- A session operation never changes the status of a non-ACTIVE session. -/
theorem AgentSession.applyCmd_status (s : AgentSession) (c : SessionCmd)
    (h : s.status ≠ SessionStatus.active) : (s.applyCmd c).status = s.status := by
  cases c with
  | startCmd => rfl
  | endCmd reason =>
    simp only [AgentSession.applyCmd, AgentSession.end_session, if_pos h]
  | expireCmd =>
    simp only [AgentSession.applyCmd, AgentSession.expire, if_pos h]
  | recordInteractionCmd t => rfl

/-! ## Claim C1 -/

/-- C1 counterexample input: a freshly created session. -/
def c1ExSession : AgentSession :=
  AgentSession.create "session-c1" "agent-c1" "user-1" "tenant-1"

/-- C1 is false as stated: `AgentSession.record_interaction` (one of the
state-changing aggregate methods the claim quantifies over) changes the
session state (`message_count`) but appends no domain event and leaves
`version` unchanged. -/
theorem c1_counterexample :
    (c1ExSession.record_interaction 5).message_count ≠ c1ExSession.message_count ∧
    (c1ExSession.record_interaction 5).version = c1ExSession.version ∧
    (c1ExSession.record_interaction 5).domain_events = c1ExSession.domain_events :=
  ⟨by decide, rfl, rfl⟩

/-- C1 (amended): the event-emitting aggregate methods each append exactly
one typed event carrying version `old + 1` and increment `version` by one —
`Agent.invoke`, `Agent.record_response` and `AgentSession.start`
unconditionally, `AgentSession.end`/`AgentSession.expire` on an ACTIVE
session (on a non-ACTIVE one they raise resp. no-op, emitting nothing) —
while the remaining state-changing methods (`Agent.update_config`,
`Agent.deactivate`, `Agent.activate`, `AgentSession.record_interaction`)
mutate state without appending an event or changing `version`; none of them
persists anything (they only return the updated aggregate).  Consequently
applying N event-emitting commands to a freshly created `Agent` yields
pending events carrying versions `1..N` in ascending order. -/
theorem c1_amended_event_emission :
    (∀ (a : Agent) (p : Prompt) (sid : String) (ctx : Option String),
      (a.invoke p sid ctx).version = a.version + 1 ∧
      (a.invoke p sid ctx).domain_events.map DomainEvent.version =
        a.domain_events.map DomainEvent.version ++ [a.version + 1]) ∧
    (∀ (a : Agent) (sid : String) (r : Response),
      (a.record_response sid r).version = a.version + 1 ∧
      (a.record_response sid r).domain_events.map DomainEvent.version =
        a.domain_events.map DomainEvent.version ++ [a.version + 1]) ∧
    (∀ s : AgentSession,
      s.start.version = s.version + 1 ∧
      s.start.domain_events.map DomainEvent.version =
        s.domain_events.map DomainEvent.version ++ [s.version + 1]) ∧
    (∀ (s : AgentSession) (reason : String), s.status = SessionStatus.active →
      ∃ s', s.end_session reason = .ok s' ∧ s'.version = s.version + 1 ∧
        s'.domain_events.map DomainEvent.version =
          s.domain_events.map DomainEvent.version ++ [s.version + 1]) ∧
    (∀ s : AgentSession, s.status = SessionStatus.active →
      s.expire.version = s.version + 1 ∧
      s.expire.domain_events.map DomainEvent.version =
        s.domain_events.map DomainEvent.version ++ [s.version + 1]) ∧
    (∀ (a : Agent) (c : AgentConfig),
      (a.update_config c).version = a.version ∧
      (a.update_config c).domain_events = a.domain_events) ∧
    (∀ a : Agent, a.deactivate.version = a.version ∧
      a.deactivate.domain_events = a.domain_events ∧
      a.activate.version = a.version ∧
      a.activate.domain_events = a.domain_events) ∧
    (∀ (s : AgentSession) (t : Nat),
      (s.record_interaction t).version = s.version ∧
      (s.record_interaction t).domain_events = s.domain_events) ∧
    (∀ (gid nm tid sp d : String) (mp : Option ModelParameters)
        (cmds : List AgentCmd),
      ((Agent.create gid nm tid sp d mp).applyCmds cmds).domain_events.map
          DomainEvent.version = List.range' 1 cmds.length) := by
  refine ⟨fun a p sid ctx => ⟨rfl, ?_⟩, fun a sid r => ⟨rfl, ?_⟩,
    fun s => ⟨rfl, ?_⟩, fun s reason h => ?_, fun s h => ?_,
    fun a c => ⟨rfl, rfl⟩, fun a => ⟨rfl, rfl, rfl, rfl⟩,
    fun s t => ⟨rfl, rfl⟩, fun gid nm tid sp d mp cmds => ?_⟩
  · simpa using Agent.applyCmd_events a (.invokeCmd p sid ctx)
  · simpa using Agent.applyCmd_events a (.recordResponseCmd sid r)
  · simp [AgentSession.start, AgentSession.add_domain_event,
      AgentSession.increment_version]
  · have hguard : ¬ s.status ≠ SessionStatus.active := by simp [h]
    simp only [AgentSession.end_session, if_neg hguard]
    exact ⟨_, rfl, rfl, by
      simp [AgentSession.add_domain_event, AgentSession.increment_version]⟩
  · have hguard : ¬ s.status ≠ SessionStatus.active := by simp [h]
    simp only [AgentSession.expire, if_neg hguard]
    exact ⟨rfl, by
      simp [AgentSession.add_domain_event, AgentSession.increment_version]⟩
  · have h := Agent.applyCmds_events (Agent.create gid nm tid sp d mp) cmds (by rfl)
    have hv : (Agent.create gid nm tid sp d mp).version = 0 := rfl
    rw [hv] at h
    simpa using h

/-- C1 witness: the event-emitting clauses exercised on a concrete ACTIVE
session — `expire` bumps the version of the freshly created (ACTIVE)
session from 1 to 2. -/
theorem c1_amended_event_emission_witness :
    c1ExSession.status = SessionStatus.active ∧
    c1ExSession.expire.version = c1ExSession.version + 1 :=
  ⟨rfl, (c1_amended_event_emission.2.2.2.2.1 c1ExSession rfl).1⟩

/-! ## Claim C9 -/

/-- C9: once a session is not ACTIVE, `expire()` is a no-op returning the
session completely unchanged (same status, version and pending event
buffer, so no duplicate `SessionEnded`), `end()` raises
`ValueError("Session is not active")` without mutating anything, and no
sequence of session operations ever brings the status back (in particular
never back to ACTIVE). -/
theorem c9_terminal_states :
    (∀ s : AgentSession, s.status ≠ SessionStatus.active → s.expire = s) ∧
    (∀ (s : AgentSession) (reason : String), s.status ≠ SessionStatus.active →
      s.end_session reason = .error "Session is not active") ∧
    (∀ (s : AgentSession) (cmds : List SessionCmd),
      s.status ≠ SessionStatus.active → (s.applyCmds cmds).status = s.status) := by
  refine ⟨fun s h => ?_, fun s reason h => ?_, fun s cmds h => ?_⟩
  · simp only [AgentSession.expire, if_pos h]
  · simp only [AgentSession.end_session, if_pos h]
  · induction cmds generalizing s with
    | nil => rfl
    | cons c cs ih =>
      have h1 := AgentSession.applyCmd_status s c h
      have h2 : (s.applyCmd c).status ≠ SessionStatus.active := by rw [h1]; exact h
      simp only [AgentSession.applyCmds, List.foldl_cons] at *
      rw [ih (s.applyCmd c) h2, h1]

/-- A concrete ENDED session for the C9 witness. -/
def c9ExEnded : AgentSession :=
  match (AgentSession.create "session-c9" "agent-c9" "u" "t").end_session
      "user_ended" with
  | .ok s => s
  | .error _ => AgentSession.create "session-c9" "agent-c9" "u" "t"

/-- C9 witness: a concretely ENDED session, on which `expire()` is a no-op. -/
theorem c9_terminal_states_witness :
    c9ExEnded.status ≠ SessionStatus.active ∧ c9ExEnded.expire = c9ExEnded :=
  ⟨by decide, c9_terminal_states.1 c9ExEnded (by decide)⟩

/-! ## Claim C10 -/

/-- C10: `AgentSession.create` returns an ACTIVE session at version 1 whose
pending buffer holds exactly one `SessionStarted` event at version 1,
whereas `Agent.create` returns an agent at version 0 with an empty pending
buffer — and the first event an agent ever emits (its first invocation)
carries version 1. -/
theorem c10_creation_asymmetry :
    (∀ gid aid uid tid : String,
      (AgentSession.create gid aid uid tid).version = 1 ∧
      (AgentSession.create gid aid uid tid).status = SessionStatus.active ∧
      (AgentSession.create gid aid uid tid).domain_events =
        [{ aggregate_id := gid, aggregate_type := "AgentSession", version := 1,
           payload := .sessionStarted gid aid uid tid }]) ∧
    (∀ (gid nm tid sp d : String) (mp : Option ModelParameters),
      (Agent.create gid nm tid sp d mp).version = 0 ∧
      (Agent.create gid nm tid sp d mp).domain_events = []) ∧
    (∀ (gid nm tid sp d : String) (mp : Option ModelParameters) (p : Prompt)
        (sid : String) (ctx : Option String),
      ((Agent.create gid nm tid sp d mp).invoke p sid ctx).domain_events.map
        DomainEvent.version = [1]) :=
  ⟨fun _ _ _ _ => ⟨rfl, rfl, rfl⟩, fun _ _ _ _ _ _ => ⟨rfl, rfl⟩,
    fun _ _ _ _ _ _ _ _ _ => rfl⟩

/-! ## Claim C2 -/

/-- C2: the event-store append is a conditional insert on the key
`(aggregateType#aggregateId, zero-padded version)`: when an item with that
exact key exists it raises `ConcurrencyError` and leaves the stored events
unchanged, otherwise it stores the event; hence of two appends targeting
the same `(aggregateType, aggregateId, version)` on a store not yet holding
that key, exactly the first succeeds and the second raises
`ConcurrencyError`, with no overwrite. -/
theorem c2_conditional_append :
    (∀ (table : List StoredEventItem) (e : DomainEvent),
      key_exists table (event_pk e) (event_sk e) = true →
      (∃ err, (event_store_append table e).1 = .error err) ∧
      (event_store_append table e).2 = table) ∧
    (∀ (table : List StoredEventItem) (e : DomainEvent),
      key_exists table (event_pk e) (event_sk e) = false →
      (event_store_append table e).1 = .ok () ∧
      (event_store_append table e).2 =
        table ++ [{ pk := event_pk e, sk := event_sk e, event := e }]) ∧
    (∀ (table : List StoredEventItem) (e1 e2 : DomainEvent),
      key_exists table (event_pk e1) (event_sk e1) = false →
      e2.aggregate_type = e1.aggregate_type → e2.aggregate_id = e1.aggregate_id →
      e2.version = e1.version →
      (event_store_append table e1).1 = .ok () ∧
      (∃ err, (event_store_append (event_store_append table e1).2 e2).1 =
        .error err) ∧
      (event_store_append (event_store_append table e1).2 e2).2 =
        (event_store_append table e1).2) := by
  refine ⟨fun table e h => ?_, fun table e h => ?_, fun table e1 e2 h ht hi hv => ?_⟩
  · simp [event_store_append, h]
  · simp [event_store_append, h]
  · have hpk : event_pk e2 = event_pk e1 := by simp [event_pk, ht, hi]
    have hsk : event_sk e2 = event_sk e1 := by simp [event_sk, hv]
    have hkey : key_exists
        (table ++ [{ pk := event_pk e1, sk := event_sk e1, event := e1 }])
        (event_pk e2) (event_sk e2) = true := by
      rw [hpk, hsk]
      simp [key_exists]
    refine ⟨by simp [event_store_append, h], ?_, ?_⟩ <;>
      simp [event_store_append, h, hkey]

/-- Concrete events with the same aggregate id and version for the C2
witness. -/
def c2ExEvent1 : DomainEvent :=
  { aggregate_id := "agent-1", aggregate_type := "Agent", version := 1,
    payload := .agentInvoked "agent-1" "s1" "hi" "user" false }

/-- A second writer's event targeting the same `(aggregateId, version)`. -/
def c2ExEvent2 : DomainEvent :=
  { aggregate_id := "agent-1", aggregate_type := "Agent", version := 1,
    payload := .agentInvoked "agent-1" "s2" "hello" "user" true }

/-- C2 witness: on the empty store, the first of two same-key appends
succeeds and the second raises, leaving the store as after the first. -/
theorem c2_conditional_append_witness :
    (event_store_append [] c2ExEvent1).1 = .ok () ∧
    (∃ err, (event_store_append (event_store_append [] c2ExEvent1).2
      c2ExEvent2).1 = .error err) ∧
    (event_store_append (event_store_append [] c2ExEvent1).2 c2ExEvent2).2 =
      (event_store_append [] c2ExEvent1).2 :=
  c2_conditional_append.2.2 [] c2ExEvent1 c2ExEvent2 (by decide) (by decide)
    (by decide) (by decide)

/-! ## Claim C8 -/

/-- A non-empty string has a non-empty character list. -/
theorem data_ne_nil_of_ne_empty {s : String} (h : s ≠ "") : s.data ≠ [] := by
  intro hd
  exact h (String.ext hd)

/-- Shape of the namespace for a truthy tenant id under isolation. -/
theorem build_namespace_tenant_shape (cfg : MemoryConfig) (u t : String)
    (ht : t ≠ "") (hiso : cfg.enable_tenant_isolation = true) :
    build_namespace cfg u (some t) =
      MemoryConfig.tenant_namespace_prefix cfg ++ "/" ++ t ++
        MemoryConfig.episode_namespace_prefix cfg ++ "/" ++ u := by
  simp [build_namespace, ht, hiso]

/-- C8: the namespace resolver is a pure function of `(userId, tenantId)`
and the config (determinism is by construction of the embedding); with
tenant isolation enabled and a (truthy) tenant id the path is
`{tenantPrefix}/{tenantId}{episodePrefix}/{userId}`, otherwise it is
`{episodePrefix}/{userId}`; and with isolation enabled, for a fixed user
and memory kind, distinct tenant ids always resolve to distinct
namespaces. -/
theorem c8_namespace_isolation :
    (∀ (cfg : MemoryConfig) (u t : String), t ≠ "" →
      cfg.enable_tenant_isolation = true →
      build_namespace cfg u (some t) =
        MemoryConfig.tenant_namespace_prefix cfg ++ "/" ++ t ++
          MemoryConfig.episode_namespace_prefix cfg ++ "/" ++ u) ∧
    (∀ (cfg : MemoryConfig) (u : String) (t : Option String),
      (t = none ∨ t = some "" ∨ cfg.enable_tenant_isolation = false) →
      build_namespace cfg u t =
        MemoryConfig.episode_namespace_prefix cfg ++ "/" ++ u) ∧
    (∀ (cfg : MemoryConfig) (u t1 t2 : String),
      cfg.enable_tenant_isolation = true → t1 ≠ t2 →
      build_namespace cfg u (some t1) ≠ build_namespace cfg u (some t2)) := by
  refine ⟨build_namespace_tenant_shape, fun cfg u t h => ?_,
    fun cfg u t1 t2 hiso hne heq => ?_⟩
  · rcases h with h | h | h
    · simp [build_namespace, h]
    · simp [build_namespace, h]
    · cases t with
      | none => simp [build_namespace]
      | some t => simp [build_namespace, h]
  · by_cases h1 : t1 = ""
    · subst h1
      by_cases h2 : t2 = ""
      · exact hne h2.symm
      · -- untenanted vs tenanted path: the character counts differ
        rw [build_namespace_tenant_shape cfg u t2 h2 hiso] at heq
        have hempty : build_namespace cfg u (some "") =
            MemoryConfig.episode_namespace_prefix cfg ++ "/" ++ u := by
          simp [build_namespace]
        rw [hempty] at heq
        have hlen := congrArg (fun s : String => s.data.length) heq
        simp only [String.data_append, List.length_append] at hlen
        have ht2 : 0 < t2.data.length :=
          List.length_pos.mpr (data_ne_nil_of_ne_empty h2)
        omega
    · by_cases h2 : t2 = ""
      · subst h2
        rw [build_namespace_tenant_shape cfg u t1 h1 hiso] at heq
        have hempty : build_namespace cfg u (some "") =
            MemoryConfig.episode_namespace_prefix cfg ++ "/" ++ u := by
          simp [build_namespace]
        rw [hempty] at heq
        have hlen := congrArg (fun s : String => s.data.length) heq
        simp only [String.data_append, List.length_append] at hlen
        have ht1 : 0 < t1.data.length :=
          List.length_pos.mpr (data_ne_nil_of_ne_empty h1)
        omega
      · rw [build_namespace_tenant_shape cfg u t1 h1 hiso,
          build_namespace_tenant_shape cfg u t2 h2 hiso] at heq
        have hd := congrArg String.data heq
        simp only [String.data_append, List.append_assoc] at hd
        have hd1 := List.append_cancel_left hd
        have hd2 := List.append_cancel_left hd1
        rw [← List.append_assoc, ← List.append_assoc,
          ← List.append_assoc, ← List.append_assoc] at hd2
        have hd3 := List.append_cancel_right hd2
        have hd4 := List.append_cancel_right hd3
        have hd5 := List.append_cancel_right hd4
        exact hne (String.ext hd5)

/-- C8 witness: with the default config, user `u1` under tenants `t1` and
`t2` resolves to distinct namespaces. -/
theorem c8_namespace_isolation_witness :
    ({} : MemoryConfig).enable_tenant_isolation = true ∧
    ("t1" : String) ≠ "t2" ∧
    build_namespace {} "u1" (some "t1") ≠ build_namespace {} "u1" (some "t2") :=
  ⟨rfl, by decide, c8_namespace_isolation.2.2 {} "u1" "t1" "t2" rfl (by decide)⟩

/-! ## Claim C5 -/

/-- C5 counterexample input: two failure patterns at confidence 0.6 (so the
`failure_count >= 2` branch fires) together with three success patterns. -/
def c5ExAnalysis : PatternAnalysis :=
  { query := "deploy the service"
    applied_patterns :=
      [{ pattern_type := .failure_pattern, pattern := "skip tests",
         confidence := 3/5, source_reflection_id := "ref-1",
         recommendation := "warn" },
       { pattern_type := .failure_pattern, pattern := "rush the deploy",
         confidence := 3/5, source_reflection_id := "ref-1",
         recommendation := "warn" },
       { pattern_type := .success_pattern, pattern := "canary rollout",
         confidence := 3/5, source_reflection_id := "ref-1",
         recommendation := "adopt" },
       { pattern_type := .success_pattern, pattern := "staged deploy",
         confidence := 3/5, source_reflection_id := "ref-1",
         recommendation := "adopt" },
       { pattern_type := .success_pattern, pattern := "monitor metrics",
         confidence := 3/5, source_reflection_id := "ref-1",
         recommendation := "adopt" }] }

/-- C5 is false as stated: with three success patterns against two failure
patterns the claim forces `"low"`, but `_assess_risk_level` checks the
failure branch first and, seeing two failure patterns, returns `"high"`. -/
theorem c5_counterexample :
    c5ExAnalysis.success_patterns.length > c5ExAnalysis.failure_patterns.length ∧
    assess_risk_level c5ExAnalysis ≠ "low" ∧
    assess_risk_level c5ExAnalysis = "high" := by
  have hf : c5ExAnalysis.failure_patterns.length = 2 := by decide
  have hhigh : assess_risk_level c5ExAnalysis = "high" := by
    simp only [assess_risk_level]
    rw [if_pos (show 0 < c5ExAnalysis.failure_patterns.length by simp [hf]),
      if_pos (Or.inr (show 2 ≤ c5ExAnalysis.failure_patterns.length by
        simp [hf]))]
  exact ⟨by decide, by rw [hhigh]; decide, hhigh⟩

/-- The scenario instance of C5: two failure patterns at 0.8 and 0.9 and no
success patterns. -/
def c5ScenarioAnalysis : PatternAnalysis :=
  { query := "reset the password"
    applied_patterns :=
      [{ pattern_type := .failure_pattern, pattern := "too much jargon",
         confidence := 4/5, source_reflection_id := "ref-1",
         recommendation := "warn" },
       { pattern_type := .failure_pattern, pattern := "skip identity check",
         confidence := 9/10, source_reflection_id := "ref-1",
         recommendation := "warn" }] }

/-- C5 (amended): `high` when failure patterns exist and their average
confidence exceeds 0.7 or at least two matched; otherwise `medium` when a
single failure pattern has average confidence above 0.5; otherwise `low`
when success patterns outnumber failure patterns — the forced-`low` rule
applies only below those failure branches — else `medium` with a failure
pattern and `low` without; and the 0.8/0.9-failure scenario classifies as
`high`. -/
theorem c5_amended_risk_classification :
    (∀ a : PatternAnalysis,
      0 < a.failure_patterns.length →
      ((a.failure_patterns.map (fun p => p.confidence)).sum /
          (a.failure_patterns.length : ℚ) > 7/10 ∨
        2 ≤ a.failure_patterns.length) →
      assess_risk_level a = "high") ∧
    (∀ a : PatternAnalysis,
      a.failure_patterns.length = 1 →
      (a.failure_patterns.map (fun p => p.confidence)).sum /
          (a.failure_patterns.length : ℚ) ≤ 7/10 →
      (a.failure_patterns.map (fun p => p.confidence)).sum /
          (a.failure_patterns.length : ℚ) > 1/2 →
      assess_risk_level a = "medium") ∧
    (∀ a : PatternAnalysis,
      a.failure_patterns.length = 1 →
      (a.failure_patterns.map (fun p => p.confidence)).sum /
          (a.failure_patterns.length : ℚ) ≤ 1/2 →
      assess_risk_level a =
        if 1 < a.success_patterns.length then "low" else "medium") ∧
    (∀ a : PatternAnalysis, a.failure_patterns.length = 0 →
      assess_risk_level a = "low") ∧
    assess_risk_level c5ScenarioAnalysis = "high" := by
  have hscen : c5ScenarioAnalysis.failure_patterns.length = 2 := by decide
  refine ⟨fun a hfc hcond => ?_, fun a h1 h2 h3 => ?_, fun a h1 h2 => ?_,
    fun a h0 => ?_, ?_⟩
  · simp only [assess_risk_level]
    rw [if_pos hfc, if_pos hcond]
  · simp only [assess_risk_level]
    rw [if_pos (by omega : 0 < a.failure_patterns.length),
      if_neg (by push_neg; exact ⟨h2, by omega⟩), if_pos h3]
  · have hle : (a.failure_patterns.map (fun p => p.confidence)).sum /
        (a.failure_patterns.length : ℚ) ≤ 7/10 := le_trans h2 (by norm_num)
    simp only [assess_risk_level]
    rw [if_pos (by omega : 0 < a.failure_patterns.length),
      if_neg (by push_neg; exact ⟨hle, by omega⟩),
      if_neg (not_lt.mpr h2), h1]
    by_cases hsc : 1 < a.success_patterns.length
    · rw [if_pos hsc, if_pos hsc]
    · rw [if_neg hsc, if_neg hsc, if_pos (by omega : (0:Nat) < 1)]
  · simp only [assess_risk_level]
    rw [if_neg (by omega), h0]
    by_cases hsc : 0 < a.success_patterns.length
    · rw [if_pos hsc]
    · rw [if_neg hsc, if_neg (by omega)]
  · simp only [assess_risk_level]
    rw [if_pos (show 0 < c5ScenarioAnalysis.failure_patterns.length by
        simp [hscen]),
      if_pos (Or.inr (show 2 ≤ c5ScenarioAnalysis.failure_patterns.length by
        simp [hscen]))]

/-- C5 witness: the first clause of the amended classification at the
concrete two-failure-pattern scenario analysis. -/
theorem c5_amended_risk_classification_witness :
    0 < c5ScenarioAnalysis.failure_patterns.length ∧
    assess_risk_level c5ScenarioAnalysis = "high" :=
  ⟨by decide, c5_amended_risk_classification.1 c5ScenarioAnalysis (by decide)
    (Or.inr (by decide))⟩

/-! ## Claim C6 -/

/-- The set of shared non-stopword tokens computed by the source
(`(query_words & pattern_words) - stop_words`) coincides with intersecting
against the stopword-stripped pattern words. -/
theorem inter_sdiff_stop (q p : Finset String) :
    q ∩ (p \ stop_words) = (q ∩ p) \ stop_words := by
  ext x
  simp only [Finset.mem_inter, Finset.mem_sdiff]
  tauto

/-- The shared non-stopword tokens sit inside the union the source divides
by. -/
theorem common_subset_union (q p : Finset String) :
    (q ∩ p) \ stop_words ⊆ q ∪ (p \ stop_words) := by
  intro x hx
  rw [Finset.mem_sdiff, Finset.mem_inter] at hx
  exact Finset.mem_union_left _ hx.1.1

/-- On a non-empty pattern word set, the confidence is exactly
`min(0.3 + jaccard(queryWords, patternWords \ stopwords) * 0.7, 1)`
(with the jaccard of two empty sets read as 0, matching rational division
by zero). -/
theorem confidence_formula (q p : List String) (hp : p.toFinset ≠ ∅) :
    calculate_pattern_confidence q p =
      min (3/10 + jaccard_coeff q.toFinset (p.toFinset \ stop_words) * (7/10)) 1 := by
  by_cases hc : ((q.toFinset ∩ p.toFinset) \ stop_words) = ∅
  · have hnum : q.toFinset ∩ (p.toFinset \ stop_words) = ∅ := by
      rw [inter_sdiff_stop]; exact hc
    simp only [calculate_pattern_confidence, if_neg hp, if_pos hc]
    rw [jaccard_coeff, hnum, Finset.card_empty, Nat.cast_zero, zero_div,
      zero_mul, add_zero, min_eq_left (by norm_num : (3:ℚ)/10 ≤ 1)]
  · have hu : q.toFinset ∪ (p.toFinset \ stop_words) ≠ ∅ := by
      intro h0
      exact hc (Finset.subset_empty.mp (h0 ▸ common_subset_union _ _))
    simp only [calculate_pattern_confidence, if_neg hp, if_neg hc, if_neg hu]
    rw [jaccard_coeff, inter_sdiff_stop]

/-- Whenever any non-stopword token is shared, the confidence is at least
the 0.3 floor. -/
theorem confidence_floor (q p : List String)
    (hc : ((q.toFinset ∩ p.toFinset) \ stop_words) ≠ ∅) :
    3/10 ≤ calculate_pattern_confidence q p := by
  have hp : p.toFinset ≠ ∅ := by
    intro h0
    apply hc
    rw [h0]
    simp
  have hu : q.toFinset ∪ (p.toFinset \ stop_words) ≠ ∅ := by
    intro h0
    exact hc (Finset.subset_empty.mp (h0 ▸ common_subset_union _ _))
  simp only [calculate_pattern_confidence, if_neg hp, if_neg hc, if_neg hu]
  refine le_min (le_add_of_nonneg_right ?_) (by norm_num)
  positivity

/-- C6: the pattern-confidence heuristic equals
`min(0.3 + jaccard(queryWords, patternWords \ stopwords) * 0.7, 1)` for any
pattern with words and is 0 for a wordless pattern; sharing any
non-stopword token guarantees the 0.3 floor; the score is monotonically
non-decreasing in shared-token overlap (growing the shared non-stopword
set while not growing the union); and an identical (non-empty) query and
pattern yields confidence at least 0.3. -/
theorem c6_pattern_confidence :
    (∀ q p : List String, p.toFinset ≠ ∅ →
      calculate_pattern_confidence q p =
        min (3/10 + jaccard_coeff q.toFinset (p.toFinset \ stop_words) * (7/10))
          1) ∧
    (∀ q p : List String, p.toFinset = ∅ →
      calculate_pattern_confidence q p = 0) ∧
    (∀ q p : List String, ((q.toFinset ∩ p.toFinset) \ stop_words) ≠ ∅ →
      3/10 ≤ calculate_pattern_confidence q p) ∧
    (∀ q1 p1 q2 p2 : List String, p1.toFinset ≠ ∅ → p2.toFinset ≠ ∅ →
      (q1.toFinset ∩ p1.toFinset) \ stop_words ⊆
        (q2.toFinset ∩ p2.toFinset) \ stop_words →
      q2.toFinset ∪ (p2.toFinset \ stop_words) ⊆
        q1.toFinset ∪ (p1.toFinset \ stop_words) →
      calculate_pattern_confidence q1 p1 ≤ calculate_pattern_confidence q2 p2) ∧
    (∀ w : List String, w.toFinset ≠ ∅ →
      3/10 ≤ calculate_pattern_confidence w w) := by
  refine ⟨confidence_formula, fun q p hp => ?_, confidence_floor,
    fun q1 p1 q2 p2 hp1 hp2 hcsub husub => ?_, fun w hw => ?_⟩
  · simp [calculate_pattern_confidence, hp]
  · rw [confidence_formula q1 p1 hp1, confidence_formula q2 p2 hp2]
    have hj : jaccard_coeff q1.toFinset (p1.toFinset \ stop_words) ≤
        jaccard_coeff q2.toFinset (p2.toFinset \ stop_words) := by
      rw [jaccard_coeff, jaccard_coeff, inter_sdiff_stop, inter_sdiff_stop]
      by_cases hc2 : ((q2.toFinset ∩ p2.toFinset) \ stop_words) = ∅
      · have hc1 : ((q1.toFinset ∩ p1.toFinset) \ stop_words) = ∅ :=
          Finset.subset_empty.mp (hc2 ▸ hcsub)
        rw [hc1, hc2]
        simp
      · have hupos : 0 < ((q2.toFinset ∪ (p2.toFinset \ stop_words)).card : ℚ) := by
          have : (q2.toFinset ∪ (p2.toFinset \ stop_words)).Nonempty := by
            obtain ⟨x, hx⟩ := Finset.nonempty_iff_ne_empty.mpr hc2
            exact ⟨x, common_subset_union _ _ hx⟩
          exact_mod_cast Finset.card_pos.mpr this
        have hcc : (((q1.toFinset ∩ p1.toFinset) \ stop_words).card : ℚ) ≤
            (((q2.toFinset ∩ p2.toFinset) \ stop_words).card : ℚ) :=
          Nat.cast_le.mpr (Finset.card_le_card hcsub)
        have huu : ((q2.toFinset ∪ (p2.toFinset \ stop_words)).card : ℚ) ≤
            ((q1.toFinset ∪ (p1.toFinset \ stop_words)).card : ℚ) :=
          Nat.cast_le.mpr (Finset.card_le_card husub)
        exact div_le_div₀ (by positivity) hcc hupos huu
    exact min_le_min
      (add_le_add_left (mul_le_mul_of_nonneg_right hj (by norm_num)) _) le_rfl
  · by_cases hc : ((w.toFinset ∩ w.toFinset) \ stop_words) = ∅
    · simp only [calculate_pattern_confidence, if_neg hw, if_pos hc]
      exact le_rfl
    · exact confidence_floor w w hc

/-- C6 witness: identical one-word query and pattern hit the 0.3 floor. -/
theorem c6_pattern_confidence_witness :
    (["hello"] : List String).toFinset ≠ ∅ ∧
    3/10 ≤ calculate_pattern_confidence ["hello"] ["hello"] :=
  ⟨by decide, c6_pattern_confidence.2.2.2.2 ["hello"] (by decide)⟩

/-! ## Claim C7 -/

/-- C7 counterexample input: one minimal episode. -/
def c7ExEpisode : Episode :=
  { id := "ep-1", situation := "s", intent := "i", assessment := "ok",
    justification := "", reflection := "", tools_used := [] }

/-- C7 is false as stated: for `maxChars = 1` (a budget below the length of
the ellipsis marker) Python's negative-index slice `context[:1 - 3]` keeps
all but the last two characters, so appending `"..."` makes the result one
character LONGER than the untruncated text — far above the budget. -/
theorem c7_counterexample :
    ¬ (((build_episode_context {} [c7ExEpisode] (some 1)).length : Int) ≤ 1) := by
  decide

/-- C7 (amended): for every episode list and every character budget
`maxChars ≥ 3`, the rendered context has length at most `maxChars`; when
the full rendered text exceeds the budget the result ends with the `"..."`
marker and consists of a prefix of the full concatenated text followed by
that marker (truncation happens only at the tail of the full text); within
budget the text is returned untruncated. -/
theorem c7_amended_truncation (cfg : MemoryConfig) (episodes : List Episode)
    (m : Int) (hm : 3 ≤ m) :
    (((build_episode_context cfg episodes (some m)).length : Int) ≤ m) ∧
    (episodes ≠ [] → ((episode_context_text episodes).length : Int) > m →
      ("...".data).isSuffixOf
        (build_episode_context cfg episodes (some m)).data = true ∧
      (str_drop_right (build_episode_context cfg episodes (some m)) 3).data <+:
        (episode_context_text episodes).data) ∧
    (episodes ≠ [] → ((episode_context_text episodes).length : Int) ≤ m →
      build_episode_context cfg episodes (some m) = episode_context_text episodes) := by
  by_cases heps : episodes = []
  · subst heps
    refine ⟨?_, fun h _ => absurd rfl h, fun h _ => absurd rfl h⟩
    simp only [build_episode_context, if_pos rfl]
    show ((0:Nat) : Int) ≤ m
    omega
  · have hm0 : m ≠ 0 := by omega
    have hmc : resolve_max_chars (some m) cfg.episode_context_max_chars = m := by
      simp [resolve_max_chars, hm0]
    by_cases htr : ((episode_context_text episodes).length : Int) > m
    · have hbuild : build_episode_context cfg episodes (some m) =
          pyslice_to (episode_context_text episodes) (m - 3) ++ "..." := by
        simp only [build_episode_context, if_neg heps, hmc, if_pos htr]
      have hms : 0 ≤ m - 3 := by omega
      have hslice : pyslice_to (episode_context_text episodes) (m - 3) =
          String.mk ((episode_context_text episodes).data.take (m - 3).toNat) := by
        simp only [pyslice_to, if_pos hms]
      have hdata : (build_episode_context cfg episodes (some m)).data =
          (episode_context_text episodes).data.take (m - 3).toNat ++ "...".data := by
        rw [hbuild, hslice, String.data_append]
      have htklen : ((episode_context_text episodes).data.take (m - 3).toNat).length =
          min (m - 3).toNat (episode_context_text episodes).data.length :=
        List.length_take _ _
      have hcast : ((m - 3).toNat : Int) = m - 3 := Int.toNat_of_nonneg hms
      have htextlen : (episode_context_text episodes).length =
          (episode_context_text episodes).data.length := rfl
      refine ⟨?_, fun _ _ => ⟨?_, ?_⟩, fun _ hle => absurd htr (not_lt.mpr hle)⟩
      · have hrlen : (build_episode_context cfg episodes (some m)).length =
            ((episode_context_text episodes).data.take (m - 3).toNat).length + 3 := by
          show (build_episode_context cfg episodes (some m)).data.length = _
          rw [hdata, List.length_append]
          rfl
        rw [hrlen, htklen]
        have := min_le_left (m - 3).toNat (episode_context_text episodes).data.length
        omega
      · rw [List.isSuffixOf_iff_suffix, hdata]
        exact ⟨_, rfl⟩
      · have hrdata : (str_drop_right (build_episode_context cfg episodes (some m))
            3).data = (episode_context_text episodes).data.take (m - 3).toNat := by
          show ((build_episode_context cfg episodes (some m)).data.take
            ((build_episode_context cfg episodes (some m)).data.length - 3)) = _
          rw [hdata, List.length_append]
          have h3 : ("...".data).length = 3 := rfl
          rw [h3, Nat.add_sub_cancel, List.take_left]
        rw [hrdata]
        exact List.take_prefix _ _
    · have hbuild : build_episode_context cfg episodes (some m) =
          episode_context_text episodes := by
        simp only [build_episode_context, if_neg heps, hmc, if_neg htr]
      refine ⟨?_, fun _ h => absurd h htr, fun _ _ => hbuild⟩
      rw [hbuild]
      omega

/-- C7 witness: the amended bound at one concrete episode and budget 40:
the result fits in 40 characters. -/
theorem c7_amended_truncation_witness :
    (3:Int) ≤ 40 ∧
    (((build_episode_context {} [c7ExEpisode] (some 40)).length : Int) ≤ 40) :=
  ⟨by norm_num, (c7_amended_truncation {} [c7ExEpisode] 40 (by norm_num)).1⟩

/-! ## Claim C3 -/

/-- Rendering no reflections yields the empty string. -/
theorem build_reflection_prompt_nil (cfg : MemoryConfig) (mc : Option Int) :
    build_reflection_prompt cfg [] mc = "" := rfl

/-- Rendering no episodes yields the empty string. -/
theorem build_episode_context_nil (cfg : MemoryConfig) (mc : Option Int) :
    build_episode_context cfg [] mc = "" := rfl

/-- A session with no messages renders to the empty string. -/
theorem build_context_prompt_nil (cfg : MemoryConfig) (s : SessionContext)
    (h : s.messages = []) (mm : Option Nat) :
    build_context_prompt cfg s mm = "" := by
  simp [build_context_prompt, SessionContext.to_prompt_context,
    SessionContext.get_recent_messages, h]

/-- The sections that survive composition: exactly those rendering to a
non-empty string, in the given order. -/
def nonempty_sections (sections : List String) : List String :=
  sections.filter (fun s => s ≠ "")

/-- C3 (amended): the handler's enriched-context composer keeps exactly the
non-empty sections in the fixed order reflection guidance, episodic
experience, knowledge-search results (session history is not one of its
sections), joined by `"\n\n---\n\n"`, and returns `None` when every section
is empty; the tenant composer keeps exactly the non-empty sections in the
order session history, episodic experience, reflection guidance, joined by
`"\n\n"`, returning the empty string when every section is empty. -/
theorem c3_amended_composition :
    (∀ (cfg : MemoryConfig) (search_results : List SearchResult)
        (episodes : List Episode) (reflections : List Reflection),
      build_enriched_context cfg search_results episodes reflections =
        (if nonempty_sections [build_reflection_prompt cfg reflections,
            build_episode_context cfg episodes,
            (match build_rag_context search_results with
             | some t => t
             | none => "")] = [] then none
         else some (String.intercalate "\n\n---\n\n"
          (nonempty_sections [build_reflection_prompt cfg reflections,
            build_episode_context cfg episodes,
            (match build_rag_context search_results with
             | some t => t
             | none => "")])))) ∧
    (∀ (cfg : MemoryConfig) (session : Option SessionContext)
        (episodes : List Episode) (reflections : List Reflection)
        (tc : TenantConfig),
      build_full_context_prompt cfg session episodes reflections tc =
        String.intercalate "\n\n" (nonempty_sections
          [(match session with
            | some s => build_context_prompt cfg s
            | none => ""),
           (if tc.enable_episodic_memory then build_episode_context cfg episodes
            else ""),
           (if tc.enable_reflections then build_reflection_prompt cfg reflections
            else "")])) := by
  constructor
  · intro cfg search_results episodes reflections
    have h1 : (if reflections ≠ [] then
        (if build_reflection_prompt cfg reflections ≠ "" then
          [build_reflection_prompt cfg reflections] else []) else []) =
        (if build_reflection_prompt cfg reflections ≠ "" then
          [build_reflection_prompt cfg reflections] else []) := by
      by_cases h : reflections = []
      · subst h; simp [build_reflection_prompt_nil]
      · simp [h]
    have h2 : (if episodes ≠ [] then
        (if build_episode_context cfg episodes ≠ "" then
          [build_episode_context cfg episodes] else []) else []) =
        (if build_episode_context cfg episodes ≠ "" then
          [build_episode_context cfg episodes] else []) := by
      by_cases h : episodes = []
      · subst h; simp [build_episode_context_nil]
      · simp [h]
    have h3 : (if search_results ≠ [] then
        (match build_rag_context search_results with
         | some t => if t ≠ "" then [t] else []
         | none => []) else []) =
        (if (match build_rag_context search_results with
             | some t => t
             | none => "") ≠ "" then
          [(match build_rag_context search_results with
            | some t => t
            | none => "")] else []) := by
      by_cases h : search_results = []
      · subst h; simp [build_rag_context]
      · simp only [h, ne_eq, not_false_eq_true, if_true]
        have hr : build_rag_context search_results =
            some (String.intercalate "\n"
              ("## Relevant Knowledge Base Information:" ::
                rag_lines 1 search_results)) := by
          simp [build_rag_context, h]
        rw [hr]
    simp only [build_enriched_context, h1, h2, h3, nonempty_sections,
      List.filter_cons, List.filter_nil, decide_not, Bool.not_eq_eq_eq_not,
      Bool.not_true, decide_eq_false_iff_not, decide_eq_true_eq]
    set A := build_reflection_prompt cfg reflections with hA
    set B := build_episode_context cfg episodes with hB
    set C := (match build_rag_context search_results with
      | some t => t
      | none => "") with hC
    by_cases c1 : A = "" <;> by_cases c2 : B = "" <;> by_cases c3 : C = "" <;>
      simp [c1, c2, c3]
  · intro cfg session episodes reflections tc
    have h1 : (match session with
        | some s =>
          if s.messages ≠ [] then
            (if build_context_prompt cfg s ≠ "" then [build_context_prompt cfg s]
             else [])
          else []
        | none => []) =
        (if (match session with
             | some s => build_context_prompt cfg s
             | none => "") ≠ "" then
          [(match session with
            | some s => build_context_prompt cfg s
            | none => "")] else []) := by
      match session with
      | none => simp
      | some s =>
        by_cases h : s.messages = []
        · simp [h, build_context_prompt_nil cfg s h]
        · simp [h]
    have h2 : (if episodes ≠ [] ∧ tc.enable_episodic_memory then
        (if build_episode_context cfg episodes ≠ "" then
          [build_episode_context cfg episodes] else []) else []) =
        (if (if tc.enable_episodic_memory then build_episode_context cfg episodes
             else "") ≠ "" then
          [(if tc.enable_episodic_memory then build_episode_context cfg episodes
            else "")] else []) := by
      by_cases hf : tc.enable_episodic_memory
      · by_cases h : episodes = []
        · subst h; simp [hf, build_episode_context_nil]
        · simp [h, hf]
      · simp [hf]
    have h3 : (if reflections ≠ [] ∧ tc.enable_reflections then
        (if build_reflection_prompt cfg reflections ≠ "" then
          [build_reflection_prompt cfg reflections] else []) else []) =
        (if (if tc.enable_reflections then build_reflection_prompt cfg reflections
             else "") ≠ "" then
          [(if tc.enable_reflections then build_reflection_prompt cfg reflections
            else "")] else []) := by
      by_cases hf : tc.enable_reflections
      · by_cases h : reflections = []
        · subst h; simp [hf, build_reflection_prompt_nil]
        · simp [h, hf]
      · simp [hf]
    simp only [build_full_context_prompt, h1, h2, h3, nonempty_sections,
      List.filter_cons, List.filter_nil, decide_not, Bool.not_eq_eq_eq_not,
      Bool.not_true, decide_eq_false_iff_not, decide_eq_true_eq]
    set A := (match session with
      | some s => build_context_prompt cfg s
      | none => "") with hA
    set B := (if tc.enable_episodic_memory then
      build_episode_context cfg episodes else "") with hB
    set C := (if tc.enable_reflections then
      build_reflection_prompt cfg reflections else "") with hC
    by_cases c1 : A = "" <;> by_cases c2 : B = "" <;> by_cases c3 : C = "" <;>
      simp [c1, c2, c3]

/-- C3 counterexample inputs: a one-message session and a minimal episode. -/
def c3ExSession : SessionContext :=
  { session_id := "s1", user_id := "u1",
    messages := [{ role := "user", content := "hi" }] }

/-- A minimal episode for the C3 counterexample. -/
def c3ExEpisode : Episode :=
  { id := "ep-3", situation := "s", intent := "i", assessment := "ok",
    justification := "", reflection := "", tools_used := [] }

/-- A tenant with both memory features enabled. -/
def c3ExTenant : TenantConfig := { tenant_id := "t1", name := "T1" }

/-- C3 is false as stated: on a non-empty session plus one episode (and no
reflections), the tenant composer emits the session-history section BEFORE
the episodic section, not after it as the claimed priority order demands;
and with all sources empty it returns the empty string, not null/absent. -/
theorem c3_counterexample :
    build_full_context_prompt {} (some c3ExSession) [c3ExEpisode] [] c3ExTenant ≠
      build_episode_context {} [c3ExEpisode] ++ "\n\n" ++
        build_context_prompt {} c3ExSession ∧
    build_full_context_prompt {} none [] [] c3ExTenant = "" :=
  ⟨by decide, rfl⟩

/-! ## Claim C4 -/

/-- Membership in a conditionally-included trace fragment. -/
theorem mem_ite_list {α} (a : α) (c : Prop) [Decidable c] (l : List α) :
    (a ∈ if c then l else []) ↔ (c ∧ a ∈ l) := by
  split <;> simp [*]

/-- C4 (amended): the handler calls `saveInteraction` only after the model
response has been computed — whenever the trace contains the save call it
also contains the (preceding) LLM call and the LLM call succeeded — but a
failure of `saveInteraction` propagates: the handler raises the
collaborator error instead of returning the generated answer. -/
theorem c4_amended_save_semantics :
    ∀ (cfg : MemoryConfig) (env : HandlerEnv) (cmd : SubmitQuestionCommand)
      (gid : String),
      HandlerStep.saveInteraction ∈ (handle cfg env cmd gid).2 →
      HandlerStep.llmGenerate ∈ (handle cfg env cmd gid).2 ∧
      (∃ content tokens, env.llm_response = .ok (content, tokens)) ∧
      (∀ e, env.save_interaction_outcome = .error e →
        (handle cfg env cmd gid).1 = .error (.collaborator e)) := by
  intro cfg env cmd gid
  obtain ⟨agent, session, eps, refl, sr, llm, si, ap, rs⟩ := env
  cases agent with
  | none => intro h; simp [handle] at h
  | some a =>
    by_cases hact : a.is_active = false
    · intro h
      simp [handle, hact] at h
    · simp only [handle]
      rw [if_neg hact]
      cases heps : (if cmd.enable_episodic_memory = true then eps
          else Except.ok []) with
      | error e =>
        intro h
        simp [mem_ite_list] at h
      | ok episodes =>
        cases hrefl : (if cmd.enable_reflections = true then refl
            else Except.ok []) with
        | error e =>
          intro h
          simp [mem_ite_list] at h
        | ok reflections =>
          cases sr with
          | error e =>
            intro h
            simp [mem_ite_list] at h
          | ok search_results =>
            cases llm with
            | error e =>
              intro h
              simp [mem_ite_list] at h
            | ok p =>
              obtain ⟨content, tokens⟩ := p
              cases si with
              | error e' =>
                intro _
                refine ⟨by simp [mem_ite_list], ⟨content, tokens, rfl⟩, ?_⟩
                intro e he
                injection he with h'
                rw [h']
              | ok u =>
                cases ap with
                | error e' =>
                  intro _
                  exact ⟨by simp [mem_ite_list], ⟨content, tokens, rfl⟩,
                    fun e he => nomatch he⟩
                | ok u' =>
                  cases rs with
                  | error e' =>
                    intro _
                    exact ⟨by simp [mem_ite_list], ⟨content, tokens, rfl⟩,
                      fun e he => nomatch he⟩
                  | ok u'' =>
                    intro _
                    exact ⟨by simp [mem_ite_list], ⟨content, tokens, rfl⟩,
                      fun e he => nomatch he⟩

/-- C4 counterexample agent. -/
def c4ExAgent : Agent :=
  Agent.create "agent-c4" "Support" "tenant-1" "You are helpful."

/-- C4 counterexample environment: every collaborator succeeds (the LLM
produces an answer) except `saveInteraction`, which raises. -/
def c4ExEnv : HandlerEnv :=
  { agent := some c4ExAgent
    session := none
    episodes := .ok []
    reflections := .ok []
    search_results := .ok []
    llm_response := .ok ("The answer.", 42)
    save_interaction_outcome := .error { message := "memory platform down" }
    append_outcome := .ok ()
    repo_save_outcome := .ok () }

/-- The command for the C4 counterexample. -/
def c4ExCmd : SubmitQuestionCommand :=
  { session_id := "s1", agent_id := "agent-c4", user_id := "u1",
    tenant_id := "tenant-1", question := "How do I reset my password?" }

/-- C4 is false as stated: with the model response already computed, a
failing `saveInteraction` makes the turn fail — `handle` raises the
collaborator error (there is no `try` on this path in the handler, and
`create_event` re-raises after logging) instead of returning the generated
answer. -/
theorem c4_counterexample :
    (handle {} c4ExEnv c4ExCmd "session-new").1 =
      .error (.collaborator { message := "memory platform down" }) ∧
    HandlerStep.llmGenerate ∈ (handle {} c4ExEnv c4ExCmd "session-new").2 :=
  ⟨rfl, by decide⟩

/-- C4 witness: the amended theorem applied to the counterexample
environment, whose trace concretely contains the save call. -/
theorem c4_amended_save_semantics_witness :
    HandlerStep.saveInteraction ∈ (handle {} c4ExEnv c4ExCmd "session-new").2 ∧
    (∃ content tokens, c4ExEnv.llm_response = .ok (content, tokens)) :=
  ⟨by decide,
    (c4_amended_save_semantics {} c4ExEnv c4ExCmd "session-new" (by decide)).2.1⟩

end AgentCoreProof
